import Mathlib

/-! XiPFS_Format example program: `main.c`

A shallow embedding of `src/main.c` and the properties of its exit code,
its global function pointer and its diagnostic output.

* `int` values are `Int`; the only arithmetic in the program is the
  comparison `argc > 1`, so no wrap-around can occur.
* The global `func_ptr_extern_1` is the one mutable object. Its `volatile`
  qualifier forces every access to be performed; the embedding performs
  every access in program order and has no other agent writing the object.
* Addresses are kept symbolic (`Obj`): their numeric values belong to the
  linker, the loader and the stack, not to the program text.
* `printf` appends one record (format string and argument) to the output
  of the state; `render` turns such a record into text for a given
  rendering of `%p`, which the C library leaves implementation-defined.
-/

namespace XipfsExample

/-! ## Data model -/

/-- Values of type `func_ptr_t` (`int (*)(void)`): the null pointer or the
address of one of the two functions of that type in the program. -/
inductive func_ptr_t where
  | null
  | func_a
  | func_b
  deriving DecidableEq, Repr

/-- Source `int func_a(void)`: `return 23;`. -/
def func_a (_ : Unit) : Int := 23

/-- Source `int func_b(void)`: `return 32;`. -/
def func_b (_ : Unit) : Int := 32

/-- Source `const int cst = 3;`. -/
def cst : Int := 3

/-- The objects whose address `main` passes to `printf`: the string literal
`"hello world !"`, the local variable `string`, the function `main` and the
constant `cst`. -/
inductive Obj where
  | string_literal
  | string
  | main
  | cst
  deriving DecidableEq, Repr

/-- The variadic argument of a `printf` call of `main`: a pointer (for `%p`)
or an `int` (for `%d`). -/
inductive PrintArg where
  | ptr (o : Obj)
  | int (n : Int)
  deriving DecidableEq, Repr

/-- One executed `printf` call: its format string and its argument. -/
structure PrintCall where
  fmt : String
  arg : PrintArg
  deriving DecidableEq, Repr

/-- The program state: the global `func_ptr_extern_1` and what has been
written to standard output so far. -/
structure State where
  func_ptr_extern_1 : func_ptr_t
  stdout : List PrintCall
  deriving DecidableEq, Repr

/-- The state at program start: `volatile func_ptr_t func_ptr_extern_1 = func_a;`
and nothing printed. -/
def State.initial : State :=
  { func_ptr_extern_1 := func_ptr_t.func_a, stdout := [] }

/-! ## Operations -/

/-- A call through a function pointer, `fp()`. Calling through the null
pointer is undefined behaviour and yields `none`. -/
def func_ptr_t.call : func_ptr_t → Option Int
  | func_ptr_t.null => none
  | func_ptr_t.func_a => some (XipfsExample.func_a ())
  | func_ptr_t.func_b => some (XipfsExample.func_b ())

/-- The library call `printf(fmt, arg)`: appends the call to the output. -/
def printf (fmt : String) (arg : PrintArg) (s : State) : State :=
  { s with stdout := s.stdout ++ [{ fmt := fmt, arg := arg }] }

/-- The first statement of `main`:
`if (argc > 1) { func_ptr_extern_1 = func_b; }`. -/
def main_select (argc : Int) (s : State) : State :=
  if argc > 1 then { s with func_ptr_extern_1 := func_ptr_t.func_b } else s

/-- The five `printf` statements of `main`, in source order. -/
def main_prints (s : State) : State :=
  let s := printf "@string = %p\n" (PrintArg.ptr Obj.string_literal) s
  let s := printf "@&string = %p\n" (PrintArg.ptr Obj.string) s
  let s := printf "@&main = %p\n" (PrintArg.ptr Obj.main) s
  let s := printf "&cst = %p\n" (PrintArg.ptr Obj.cst) s
  let s := printf "cst = %d\n" (PrintArg.int cst) s
  s

/-- Source `int main(int argc, char **argv)`. The result is `none` when the
call `func_ptr_extern_1()` is undefined, otherwise the returned `int` and
the final state. -/
def main (argc : Int) (_argv : List String) (s : State) : Option (Int × State) :=
  let s := main_select argc s
  match s.func_ptr_extern_1.call with
  | none => none
  | some v => some (v, main_prints s)

/-! ## Rendering of the output -/

/-- The text of one conversion specification: `%p` with a pointer is
rendered by `p`, `%d` with an `int` in decimal. -/
def conversion (p : Obj → List Char) : Char → PrintArg → List Char
  | 'p', PrintArg.ptr o => p o
  | 'd', PrintArg.int n => (toString n).data
  | _, _ => []

/-- Expansion of a format string with one argument. -/
def vformat (p : Obj → List Char) : List Char → PrintArg → List Char
  | [], _ => []
  | [c], _ => [c]
  | c :: d :: rest, a =>
    if c = '%' then conversion p d a ++ vformat p rest a
    else c :: vformat p (d :: rest) a

/-- The characters one `printf` call writes. -/
def render (p : Obj → List Char) (c : PrintCall) : List Char :=
  vformat p c.fmt.data c.arg

/-! ## Helper lemmas -/

theorem main_select_of_gt {argc : Int} (h : argc > 1) (s : State) :
    main_select argc s = { s with func_ptr_extern_1 := func_ptr_t.func_b } := by
  simp [main_select, h]

theorem main_select_of_le {argc : Int} (h : argc ≤ 1) (s : State) :
    main_select argc s = s := by
  have h' : ¬ argc > 1 := not_lt.mpr h
  simp [main_select, h']

theorem main_prints_func_ptr (s : State) :
    (main_prints s).func_ptr_extern_1 = s.func_ptr_extern_1 := rfl

theorem main_prints_stdout (s : State) :
    (main_prints s).stdout = s.stdout ++
      [⟨"@string = %p\n", PrintArg.ptr Obj.string_literal⟩,
       ⟨"@&string = %p\n", PrintArg.ptr Obj.string⟩,
       ⟨"@&main = %p\n", PrintArg.ptr Obj.main⟩,
       ⟨"&cst = %p\n", PrintArg.ptr Obj.cst⟩,
       ⟨"cst = %d\n", PrintArg.int cst⟩] := by
  simp [main_prints, printf]

theorem main_select_stdout (argc : Int) (s : State) :
    (main_select argc s).stdout = s.stdout := by
  unfold main_select
  split <;> rfl

theorem main_of_call {argc : Int} {s : State} {v : Int} (argv : List String)
    (h : (main_select argc s).func_ptr_extern_1.call = some v) :
    main argc argv s = some (v, main_prints (main_select argc s)) := by
  simp [main, h]

theorem main_eq_some {argc : Int} {argv : List String} {s s' : State} {v : Int}
    (h : main argc argv s = some (v, s')) :
    (main_select argc s).func_ptr_extern_1.call = some v ∧
      s' = main_prints (main_select argc s) := by
  unfold main at h
  cases hc : (main_select argc s).func_ptr_extern_1.call with
  | none => simp [hc] at h
  | some w =>
    simp [hc] at h
    exact ⟨by rw [h.1], h.2.symm⟩

/-! ## Exit code -/

/-- C1: from the initial state (`func_ptr_extern_1 = func_a`), `main` called
with `argc ≤ 1` (no command-line argument) returns 23. -/
theorem main_zero_arguments_returns_23 (argc : Int) (argv : List String)
    (h : argc ≤ 1) :
    State.initial.func_ptr_extern_1 = func_ptr_t.func_a ∧
      main argc argv State.initial = some (23, main_prints State.initial) := by
  refine ⟨rfl, ?_⟩
  have hc : (main_select argc State.initial).func_ptr_extern_1.call = some 23 := by
    rw [main_select_of_le h]; rfl
  rw [main_of_call argv hc, main_select_of_le h]

theorem main_zero_arguments_returns_23_witness :
    (1 : Int) ≤ 1 ∧ State.initial.func_ptr_extern_1 = func_ptr_t.func_a ∧
      main 1 ["main"] State.initial = some (23, main_prints State.initial) :=
  ⟨by decide, main_zero_arguments_returns_23 1 ["main"] (by decide)⟩

/-- C2: from the initial state, `main` called with `argc > 1` (one or more
command-line arguments) returns 32. -/
theorem main_with_arguments_returns_32 (argc : Int) (argv : List String)
    (h : argc > 1) :
    main argc argv State.initial =
      some (32, main_prints { State.initial with func_ptr_extern_1 := func_ptr_t.func_b }) := by
  have hc : (main_select argc State.initial).func_ptr_extern_1.call = some 32 := by
    rw [main_select_of_gt h]; rfl
  rw [main_of_call argv hc, main_select_of_gt h]

theorem main_with_arguments_returns_32_witness :
    (2 : Int) > 1 ∧ main 2 ["main", "x"] State.initial =
      some (32, main_prints { State.initial with func_ptr_extern_1 := func_ptr_t.func_b }) :=
  ⟨by decide, main_with_arguments_returns_32 2 ["main", "x"] (by decide)⟩

/-- C3: for every `argc` and every entry value of the pointer among `func_a`
and `func_b`, `main` returns the value returned by the function that
`func_ptr_extern_1` holds after the `argc` test, and that value is 23 or 32. -/
theorem main_returns_selected (argc : Int) (argv : List String) (s : State)
    (h : s.func_ptr_extern_1 = func_ptr_t.func_a ∨
      s.func_ptr_extern_1 = func_ptr_t.func_b) :
    ∃ v s', main argc argv s = some (v, s') ∧
      (main_select argc s).func_ptr_extern_1.call = some v ∧
      (v = 23 ∨ v = 32) := by
  by_cases hargc : argc > 1
  · have hc : (main_select argc s).func_ptr_extern_1.call = some 32 := by
      rw [main_select_of_gt hargc]; rfl
    exact ⟨32, _, main_of_call argv hc, hc, Or.inr rfl⟩
  · have hle : argc ≤ 1 := not_lt.mp hargc
    rcases h with h | h
    · have hc : (main_select argc s).func_ptr_extern_1.call = some 23 := by
        rw [main_select_of_le hle, h]; rfl
      exact ⟨23, _, main_of_call argv hc, hc, Or.inl rfl⟩
    · have hc : (main_select argc s).func_ptr_extern_1.call = some 32 := by
        rw [main_select_of_le hle, h]; rfl
      exact ⟨32, _, main_of_call argv hc, hc, Or.inr rfl⟩

theorem main_returns_selected_witness :
    (State.initial.func_ptr_extern_1 = func_ptr_t.func_a ∨
      State.initial.func_ptr_extern_1 = func_ptr_t.func_b) ∧
    ∃ v s', main 1 ["main"] State.initial = some (v, s') ∧
      (main_select 1 State.initial).func_ptr_extern_1.call = some v ∧
      (v = 23 ∨ v = 32) :=
  ⟨Or.inl rfl, main_returns_selected 1 ["main"] State.initial (Or.inl rfl)⟩

/-! ## The global function pointer -/

/-- C4: with `argc > 1` the pointer `func_ptr_extern_1` is `func_b` when the
call is made (so the call returns `func_b`'s value) and after `main` returns;
with `argc ≤ 1` the `argc` test leaves the pointer as it was at entry, every
completed run ends with the entry value, and a run from a non-null pointer
completes; the pointer is `func_a` in the initial state and `cst` is 3. -/
theorem main_select_frame (argc : Int) (argv : List String) (s : State) :
    (argc > 1 →
      (main_select argc s).func_ptr_extern_1 = func_ptr_t.func_b ∧
      ∃ v s', main argc argv s = some (v, s') ∧
        func_ptr_t.func_b.call = some v ∧
        s'.func_ptr_extern_1 = func_ptr_t.func_b) ∧
    (argc ≤ 1 →
      (main_select argc s).func_ptr_extern_1 = s.func_ptr_extern_1 ∧
      (∀ v s', main argc argv s = some (v, s') →
        s'.func_ptr_extern_1 = s.func_ptr_extern_1) ∧
      (s.func_ptr_extern_1 ≠ func_ptr_t.null →
        ∃ v s', main argc argv s = some (v, s') ∧
          s.func_ptr_extern_1.call = some v ∧
          s'.func_ptr_extern_1 = s.func_ptr_extern_1)) ∧
    State.initial.func_ptr_extern_1 = func_ptr_t.func_a ∧
    cst = 3 := by
  refine ⟨?_, ?_, rfl, rfl⟩
  · intro h
    have hs := main_select_of_gt h s
    have hc : (main_select argc s).func_ptr_extern_1.call = some 32 := by
      rw [hs]; rfl
    refine ⟨by rw [hs], 32, _, main_of_call argv hc, rfl, ?_⟩
    rw [main_prints_func_ptr, hs]
  · intro h
    have hs := main_select_of_le h s
    refine ⟨by rw [hs], ?_, ?_⟩
    · intro v s' hm
      rw [(main_eq_some hm).2, main_prints_func_ptr, hs]
    · intro hnull
      cases hc : s.func_ptr_extern_1.call with
      | none =>
        cases hp : s.func_ptr_extern_1 with
        | null => exact absurd hp hnull
        | func_a => rw [hp] at hc; cases hc
        | func_b => rw [hp] at hc; cases hc
      | some v =>
        have hc' : (main_select argc s).func_ptr_extern_1.call = some v := by
          rw [hs]; exact hc
        refine ⟨v, _, main_of_call argv hc', rfl, ?_⟩
        rw [main_prints_func_ptr, hs]

theorem main_select_frame_witness :
    (∃ v s', main 2 ["main", "x"] State.initial = some (v, s') ∧
        func_ptr_t.func_b.call = some v ∧
        s'.func_ptr_extern_1 = func_ptr_t.func_b) ∧
    (∃ v s', main 1 ["main"] State.initial = some (v, s') ∧
        State.initial.func_ptr_extern_1.call = some v ∧
        s'.func_ptr_extern_1 = State.initial.func_ptr_extern_1) :=
  ⟨((main_select_frame 2 ["main", "x"] State.initial).1 (by decide)).2,
   ((main_select_frame 1 ["main"] State.initial).2.1 (by decide)).2.2 (by decide)⟩

/-- C7: the selection is sticky. Entered with the pointer equal to `func_b`,
`main` returns 32 for every `argc` and leaves the pointer at `func_b`; this
is the case of the state left by an earlier run with `argc > 1`. `main` never
stores `func_a`: a run ending with the pointer at `func_a` started there with
`argc ≤ 1`. With `argc ≤ 1` the result is 23 exactly when the entry pointer
is `func_a`. -/
theorem main_selection_sticky (argc : Int) (argv : List String) (s : State) :
    (s.func_ptr_extern_1 = func_ptr_t.func_b →
      main argc argv s = some (32, main_prints s) ∧
      (main_prints s).func_ptr_extern_1 = func_ptr_t.func_b) ∧
    (∀ (argc0 : Int) (argv0 : List String) (s0 : State) (v0 : Int), argc0 > 1 →
      main argc0 argv0 s0 = some (v0, s) →
      ∃ s', main argc argv s = some (32, s')) ∧
    (∀ v s', main argc argv s = some (v, s') →
      s'.func_ptr_extern_1 = func_ptr_t.func_a →
      s.func_ptr_extern_1 = func_ptr_t.func_a ∧ argc ≤ 1) ∧
    (argc ≤ 1 →
      ((∃ s', main argc argv s = some (23, s')) ↔
        s.func_ptr_extern_1 = func_ptr_t.func_a)) := by
  have sticky : s.func_ptr_extern_1 = func_ptr_t.func_b →
      main argc argv s = some (32, main_prints s) := by
    intro h
    have hs : main_select argc s = s := by
      by_cases hargc : argc > 1
      · rw [main_select_of_gt hargc, ← h]
      · exact main_select_of_le (not_lt.mp hargc) s
    have hc : (main_select argc s).func_ptr_extern_1.call = some 32 := by
      rw [hs, h]; rfl
    rw [main_of_call argv hc, hs]
  refine ⟨fun h => ⟨sticky h, by rw [main_prints_func_ptr, h]⟩, ?_, ?_, ?_⟩
  · intro argc0 argv0 s0 v0 h0 hm
    have hs : s.func_ptr_extern_1 = func_ptr_t.func_b := by
      rw [(main_eq_some hm).2, main_prints_func_ptr, main_select_of_gt h0]
    exact ⟨_, sticky hs⟩
  · intro v s' hm hfin
    rw [(main_eq_some hm).2, main_prints_func_ptr] at hfin
    by_cases hargc : argc > 1
    · rw [main_select_of_gt hargc] at hfin
      cases hfin
    · have hle : argc ≤ 1 := not_lt.mp hargc
      rw [main_select_of_le hle] at hfin
      exact ⟨hfin, hle⟩
  · intro hle
    constructor
    · rintro ⟨s', hm⟩
      have hc := (main_eq_some hm).1
      rw [main_select_of_le hle] at hc
      cases hp : s.func_ptr_extern_1 with
      | null => rw [hp] at hc; cases hc
      | func_a => rfl
      | func_b => rw [hp] at hc; cases hc
    · intro hp
      have hc : (main_select argc s).func_ptr_extern_1.call = some 23 := by
        rw [main_select_of_le hle, hp]; rfl
      exact ⟨_, main_of_call argv hc⟩

theorem main_selection_sticky_witness :
    main 1 ["main"] { func_ptr_extern_1 := func_ptr_t.func_b, stdout := [] } =
      some (32, main_prints { func_ptr_extern_1 := func_ptr_t.func_b, stdout := [] }) :=
  ((main_selection_sticky 1 ["main"]
    { func_ptr_extern_1 := func_ptr_t.func_b, stdout := [] }).1 rfl).1

/-! ## Absence of failure -/

/-- C5: for every `argc`, every `argv` and every entry value of the pointer
among `func_a` and `func_b`, `main` completes and returns a value. -/
theorem main_no_error (argc : Int) (argv : List String) (s : State)
    (h : s.func_ptr_extern_1 = func_ptr_t.func_a ∨
      s.func_ptr_extern_1 = func_ptr_t.func_b) :
    ∃ v s', main argc argv s = some (v, s') := by
  by_cases hargc : argc > 1
  · have hc : (main_select argc s).func_ptr_extern_1.call = some 32 := by
      rw [main_select_of_gt hargc]; rfl
    exact ⟨32, _, main_of_call argv hc⟩
  · have hs := main_select_of_le (not_lt.mp hargc) s
    rcases h with h | h
    · have hc : (main_select argc s).func_ptr_extern_1.call = some 23 := by
        rw [hs, h]; rfl
      exact ⟨23, _, main_of_call argv hc⟩
    · have hc : (main_select argc s).func_ptr_extern_1.call = some 32 := by
        rw [hs, h]; rfl
      exact ⟨32, _, main_of_call argv hc⟩

theorem main_no_error_witness :
    (State.initial.func_ptr_extern_1 = func_ptr_t.func_a ∨
      State.initial.func_ptr_extern_1 = func_ptr_t.func_b) ∧
    ∃ v s', main 0 [] State.initial = some (v, s') :=
  ⟨Or.inl rfl, main_no_error 0 [] State.initial (Or.inl rfl)⟩

/-! ## Independence from `argv` -/

/-- C9: the result of `main` (returned value and final state) does not
depend on `argv`: two runs with the same `argc` and the same entry state and
different `argv` give the same result. The returned value and the final
pointer depend on `argc` and the entry pointer only: they agree for any two
entry states with the same pointer, whatever the two `argv`. -/
theorem main_argv_independent (argc : Int) (argv1 argv2 : List String) (s : State) :
    main argc argv1 s = main argc argv2 s ∧
    ∀ s2 : State, s2.func_ptr_extern_1 = s.func_ptr_extern_1 →
      (main argc argv2 s2).map (fun r => (r.1, r.2.func_ptr_extern_1)) =
        (main argc argv1 s).map (fun r => (r.1, r.2.func_ptr_extern_1)) := by
  refine ⟨rfl, ?_⟩
  intro s2 h
  have hsel : (main_select argc s2).func_ptr_extern_1 =
      (main_select argc s).func_ptr_extern_1 := by
    by_cases hargc : argc > 1
    · rw [main_select_of_gt hargc, main_select_of_gt hargc]
    · rw [main_select_of_le (not_lt.mp hargc), main_select_of_le (not_lt.mp hargc), h]
  cases hc : (main_select argc s).func_ptr_extern_1.call with
  | none =>
    have hc2 : (main_select argc s2).func_ptr_extern_1.call = none := by
      rw [hsel]; exact hc
    simp [main, hc, hc2]
  | some v =>
    have hc2 : (main_select argc s2).func_ptr_extern_1.call = some v := by
      rw [hsel]; exact hc
    rw [main_of_call argv2 hc2, main_of_call argv1 hc]
    simp [main_prints_func_ptr, hsel]

theorem main_argv_independent_witness :
    main 2 ["main", "x"] State.initial = main 2 ["main", "y"] State.initial ∧
    (main 2 ["main", "y"] (printf "cst = %d\n" (PrintArg.int cst) State.initial)).map
        (fun r => (r.1, r.2.func_ptr_extern_1)) =
      (main 2 ["main", "x"] State.initial).map
        (fun r => (r.1, r.2.func_ptr_extern_1)) :=
  ⟨(main_argv_independent 2 ["main", "x"] ["main", "y"] State.initial).1,
   (main_argv_independent 2 ["main", "x"] ["main", "y"] State.initial).2 _ rfl⟩

/-! ## Diagnostic output -/

/-- C8: the output of `main` is the same whatever function was selected.
There are five `printf` records, fixed once and for all, such that: their
text is `@string = `, `@&string = `, `@&main = `, `&cst = ` each followed by
the rendering of one address and a newline, then `cst = 3`; every `int` they
print is 3, so none is 23 or 32; their text contains the digit 2 only where
the rendering of an address does; and every run of `main` from a pointer
among `func_a` and `func_b`, for every `argc`, appends exactly these five
records, none of which carries the returned value. -/
theorem main_output_fixed :
    ∃ l1 l2 l3 l4 l5 : PrintCall,
      (∀ p : Obj → List Char,
        render p l1 = "@string = ".data ++ p Obj.string_literal ++ "\n".data ∧
        render p l2 = "@&string = ".data ++ p Obj.string ++ "\n".data ∧
        render p l3 = "@&main = ".data ++ p Obj.main ++ "\n".data ∧
        render p l4 = "&cst = ".data ++ p Obj.cst ++ "\n".data ∧
        render p l5 = "cst = 3\n".data) ∧
      (∀ l ∈ [l1, l2, l3, l4, l5],
        l.arg ≠ PrintArg.int 23 ∧ l.arg ≠ PrintArg.int 32 ∧
        ∀ n, l.arg = PrintArg.int n → n = 3) ∧
      (∀ p : Obj → List Char, (∀ o, '2' ∉ p o) →
        ∀ l ∈ [l1, l2, l3, l4, l5], '2' ∉ render p l) ∧
      (∀ (argc : Int) (argv : List String) (s : State),
        s.func_ptr_extern_1 = func_ptr_t.func_a ∨
          s.func_ptr_extern_1 = func_ptr_t.func_b →
        ∃ v s', main argc argv s = some (v, s') ∧
          s'.stdout = s.stdout ++ [l1, l2, l3, l4, l5] ∧
          ∀ l ∈ [l1, l2, l3, l4, l5], l.arg ≠ PrintArg.int v) := by
  refine ⟨⟨"@string = %p\n", PrintArg.ptr Obj.string_literal⟩,
    ⟨"@&string = %p\n", PrintArg.ptr Obj.string⟩,
    ⟨"@&main = %p\n", PrintArg.ptr Obj.main⟩,
    ⟨"&cst = %p\n", PrintArg.ptr Obj.cst⟩,
    ⟨"cst = %d\n", PrintArg.int cst⟩, ?_, ?_, ?_, ?_⟩
  · intro p
    exact ⟨rfl, rfl, rfl, rfl, rfl⟩
  · intro l hl
    simp only [List.mem_cons, List.mem_singleton, List.not_mem_nil, or_false] at hl
    rcases hl with rfl | rfl | rfl | rfl | rfl <;> simp [cst]
  · intro p hp l hl
    simp only [List.mem_cons, List.mem_singleton, List.not_mem_nil, or_false] at hl
    rcases hl with rfl | rfl | rfl | rfl | rfl
    · have e : render p ⟨"@string = %p\n", PrintArg.ptr Obj.string_literal⟩ =
          "@string = ".data ++ p Obj.string_literal ++ "\n".data := rfl
      rw [e]; simp [hp]
    · have e : render p ⟨"@&string = %p\n", PrintArg.ptr Obj.string⟩ =
          "@&string = ".data ++ p Obj.string ++ "\n".data := rfl
      rw [e]; simp [hp]
    · have e : render p ⟨"@&main = %p\n", PrintArg.ptr Obj.main⟩ =
          "@&main = ".data ++ p Obj.main ++ "\n".data := rfl
      rw [e]; simp [hp]
    · have e : render p ⟨"&cst = %p\n", PrintArg.ptr Obj.cst⟩ =
          "&cst = ".data ++ p Obj.cst ++ "\n".data := rfl
      rw [e]; simp [hp]
    · have e : render p ⟨"cst = %d\n", PrintArg.int cst⟩ = "cst = 3\n".data := rfl
      rw [e]; decide
  · intro argc argv s h
    have hv : ∃ v, (main_select argc s).func_ptr_extern_1.call = some v ∧
        (v = 23 ∨ v = 32) := by
      by_cases hargc : argc > 1
      · exact ⟨32, by rw [main_select_of_gt hargc]; rfl, Or.inr rfl⟩
      · have hs := main_select_of_le (not_lt.mp hargc) s
        rcases h with h | h
        · exact ⟨23, by rw [hs, h]; rfl, Or.inl rfl⟩
        · exact ⟨32, by rw [hs, h]; rfl, Or.inr rfl⟩
    obtain ⟨v, hc, hv⟩ := hv
    refine ⟨v, _, main_of_call argv hc, ?_, ?_⟩
    · rw [main_prints_stdout, main_select_stdout]
    · intro l hl
      simp only [List.mem_cons, List.mem_singleton, List.not_mem_nil, or_false] at hl
      rcases hv with rfl | rfl <;>
        rcases hl with rfl | rfl | rfl | rfl | rfl <;> simp [cst]

theorem main_output_fixed_witness :
    ∃ l1 l2 l3 l4 l5 : PrintCall,
      render (fun _ => "0x1".data) l5 = "cst = 3\n".data ∧
      ∃ v s', main 1 ["main"] State.initial = some (v, s') ∧
        s'.stdout = State.initial.stdout ++ [l1, l2, l3, l4, l5] := by
  obtain ⟨l1, l2, l3, l4, l5, hr, _, _, hm⟩ := main_output_fixed
  obtain ⟨v, s', h1, h2, _⟩ := hm 1 ["main"] State.initial (Or.inl rfl)
  exact ⟨l1, l2, l3, l4, l5, (hr _).2.2.2.2, v, s', h1, h2⟩

end XipfsExample
